import Mathlib

/-!
# Verification of the room presence and broadcast core (server/src/server.ts)

Shallow embedding of the socket server's in-memory connection registry
(`userSocketMap`), its lookup helpers, and the socket event handlers.
Transport-room membership (socket.io rooms, entered via `socket.join` and
left via `socket.leave`) is modelled as a list of (socketId, roomId)
pairs; `socket.broadcast.to(roomId).emit(...)` delivers to every member
of that room except the sending socket, and `io.to(sid).emit(...)`
delivers to the single target socket.
-/

namespace EditMe

abbrev SocketId := String

/-- `USER_CONNECTION_STATUS` from types/user. -/
inductive Status where
  | online
  | offline
  | away
deriving DecidableEq, Repr

/-- The `User` rows stored in `userSocketMap` (types/user). -/
structure User where
  username : String
  roomId : String
  status : Status
  cursorPosition : Nat
  typing : Bool
  socketId : SocketId
  currentFile : Option String
deriving DecidableEq, Repr

/-- Socket event names (types/socket `SocketEvent`), as used by server.ts. -/
inductive SocketEvent where
  | USERNAME_EXISTS
  | JOIN_ACCEPTED
  | USER_JOINED
  | USER_DISCONNECTED
  | SEND_MESSAGE
  | RECEIVE_MESSAGE
  | TYPING_START
  | TYPING_PAUSE
  | USER_ONLINE
  | USER_OFFLINE
  | FILE_CREATED
  | FILE_UPDATED
  | FILE_RENAMED
  | FILE_DELETED
  | DIRECTORY_CREATED
  | DIRECTORY_UPDATED
  | DIRECTORY_RENAMED
  | DIRECTORY_DELETED
  | DRAWING_UPDATE
  | REQUEST_DRAWING
  | SYNC_DRAWING
  | SYNC_FILE_STRUCTURE
deriving DecidableEq, Repr

/-- Event payloads; application data (file ids, contents, snapshots) is
kept as strings, forwarded verbatim as in the source. -/
inductive Payload where
  | empty
  | user (u : User)
  | userAndUsers (u : User) (users : List User)
  | message (m : String)
  | socketId (sid : SocketId)
  | pair (a b : String)
  | single (a : String)
  | sync3 (fileStructure openFiles activeFile : String)
deriving DecidableEq, Repr

/-- One delivered message: which socket receives which event/payload. -/
structure Delivery where
  target : SocketId
  event : SocketEvent
  payload : Payload
deriving DecidableEq, Repr

/-- Server state: the registry `userSocketMap` plus the transport's
room-membership table (socket.io rooms). -/
structure ServerState where
  userSocketMap : List User
  groups : List (SocketId × String)
deriving DecidableEq, Repr

def initialState : ServerState :=
  { userSocketMap := [], groups := [] }

/-- Result of running one event handler: the new server state, the
deliveries made, and the console-error log lines emitted. -/
structure HandlerResult where
  state : ServerState
  out : List Delivery
  logs : List String := []
deriving DecidableEq, Repr

/-- `getUsersInRoom` (server.ts): filter the registry by room id. -/
def getUsersInRoom (m : List User) (roomId : String) : List User :=
  m.filter (fun u => u.roomId == roomId)

/-- `getRoomId` (server.ts): `find(...)?.roomId`, with `if (!roomId)`
returning null; the empty string is falsy in JS, so a row whose roomId
is `""` also yields null. -/
def getRoomId (m : List User) (socketId : SocketId) : Option String :=
  match m.find? (fun u => u.socketId == socketId) with
  | none => none
  | some u => if u.roomId = "" then none else some u.roomId

/-- `getUserBySocketId` (server.ts): first registry row with the given
socket id, or null. -/
def getUserBySocketId (m : List User) (socketId : SocketId) : Option User :=
  m.find? (fun u => u.socketId == socketId)

/-- Transport: members of a socket.io room. -/
def roomMembers (g : List (SocketId × String)) (roomId : String) : List SocketId :=
  (g.filter (fun p => p.2 == roomId)).map Prod.fst

/-- Transport: `socket.join(roomId)` — idempotent room membership. -/
def joinGroup (g : List (SocketId × String)) (sid : SocketId) (roomId : String) :
    List (SocketId × String) :=
  if (sid, roomId) ∈ g then g else g ++ [(sid, roomId)]

/-- Transport: `socket.leave(roomId)`. -/
def leaveGroup (g : List (SocketId × String)) (sid : SocketId) (roomId : String) :
    List (SocketId × String) :=
  g.filter (fun p => p ≠ (sid, roomId))

/-- Transport: on full disconnect, socket.io removes the socket from
every room it is in. -/
def leaveAllGroups (g : List (SocketId × String)) (sid : SocketId) :
    List (SocketId × String) :=
  g.filter (fun p => p.1 ≠ sid)

/-- `io.to(sid).emit(ev, p)`: unicast to one socket. -/
def unicast (target : SocketId) (ev : SocketEvent) (p : Payload) : List Delivery :=
  [⟨target, ev, p⟩]

/-- `socket.broadcast.to(roomId).emit(ev, p)`: deliver to every member
of the room except the sending socket. -/
def broadcastToRoom (g : List (SocketId × String)) (sender : SocketId)
    (roomId : String) (ev : SocketEvent) (p : Payload) : List Delivery :=
  ((roomMembers g roomId).filter (fun c => c ≠ sender)).map (fun c => ⟨c, ev, p⟩)

/-- The `User` literal built inside the JOIN_REQUEST handler. -/
def joinUser (sid : SocketId) (roomId username : String) : User :=
  { username := username
    roomId := roomId
    status := Status.online
    cursorPosition := 0
    typing := false
    socketId := sid
    currentFile := none }

/-- `SocketEvent.JOIN_REQUEST` handler (server.ts lines 90–119).
`sinkResult` is the outcome of the fire-and-forget
`await UserModel.create(user)`; a failure is only console-logged. -/
def handleJoinRequest (s : ServerState) (sid : SocketId) (roomId username : String)
    (sinkResult : Except String Unit) : HandlerResult :=
  let isUsernameExist :=
    (getUsersInRoom s.userSocketMap roomId).any (fun u => u.username == username)
  if isUsernameExist then
    { state := s, out := unicast sid SocketEvent.USERNAME_EXISTS Payload.empty }
  else
    let user := joinUser sid roomId username
    let m1 := s.userSocketMap ++ [user]
    let g1 := joinGroup s.groups sid roomId
    let outJoined := broadcastToRoom g1 sid roomId SocketEvent.USER_JOINED (Payload.user user)
    let users := getUsersInRoom m1 roomId
    let outAccepted :=
      unicast sid SocketEvent.JOIN_ACCEPTED (Payload.userAndUsers user users)
    let sinkLogs :=
      match sinkResult with
      | Except.ok _ => []
      | Except.error e => ["Error saving user to MongoDB: " ++ e]
    { state := { userSocketMap := m1, groups := g1 }
      out := outJoined ++ outAccepted
      logs := sinkLogs }

/-- `disconnecting` handler (server.ts lines 121–128), followed by the
transport removing the closed socket from all of its rooms. -/
def handleDisconnecting (s : ServerState) (sid : SocketId) : HandlerResult :=
  match getUserBySocketId s.userSocketMap sid with
  | none => { state := s, out := [] }
  | some user =>
    let roomId := user.roomId
    let outDisc := broadcastToRoom s.groups sid roomId
      SocketEvent.USER_DISCONNECTED (Payload.user user)
    let m1 := s.userSocketMap.filter (fun u => u.socketId != sid)
    let g1 := leaveAllGroups (leaveGroup s.groups sid roomId) sid
    { state := { userSocketMap := m1, groups := g1 }, out := outDisc }

/-- The shared shape of the pure room-broadcast handlers (server.ts
lines 138–202, 226–230, 254–260, 266–270): look up the sender's room
via `getRoomId`; if null, return; otherwise broadcast to the room
excluding the sender. The registry is untouched. -/
def roomBroadcastResult (s : ServerState) (sid : SocketId)
    (ev : SocketEvent) (p : Payload) : HandlerResult :=
  match getRoomId s.userSocketMap sid with
  | none => { state := s, out := [] }
  | some roomId => { state := s, out := broadcastToRoom s.groups sid roomId ev p }

/-- `SocketEvent.SEND_MESSAGE` handler (server.ts lines 226–230). -/
def handleSendMessage (s : ServerState) (sid : SocketId) (message : String) :
    HandlerResult :=
  roomBroadcastResult s sid SocketEvent.RECEIVE_MESSAGE (Payload.message message)

/-- `SocketEvent.DIRECTORY_CREATED` handler (lines 138–145). -/
def handleDirectoryCreated (s : ServerState) (sid : SocketId)
    (parentDirId newDirectory : String) : HandlerResult :=
  roomBroadcastResult s sid SocketEvent.DIRECTORY_CREATED (Payload.pair parentDirId newDirectory)

/-- `SocketEvent.DIRECTORY_UPDATED` handler (lines 147–154). -/
def handleDirectoryUpdated (s : ServerState) (sid : SocketId)
    (dirId children : String) : HandlerResult :=
  roomBroadcastResult s sid SocketEvent.DIRECTORY_UPDATED (Payload.pair dirId children)

/-- `SocketEvent.DIRECTORY_RENAMED` handler (lines 156–163). -/
def handleDirectoryRenamed (s : ServerState) (sid : SocketId)
    (dirId newName : String) : HandlerResult :=
  roomBroadcastResult s sid SocketEvent.DIRECTORY_RENAMED (Payload.pair dirId newName)

/-- `SocketEvent.DIRECTORY_DELETED` handler (lines 165–169). -/
def handleDirectoryDeleted (s : ServerState) (sid : SocketId)
    (dirId : String) : HandlerResult :=
  roomBroadcastResult s sid SocketEvent.DIRECTORY_DELETED (Payload.single dirId)

/-- `SocketEvent.FILE_CREATED` handler (lines 171–178). -/
def handleFileCreated (s : ServerState) (sid : SocketId)
    (parentDirId newFile : String) : HandlerResult :=
  roomBroadcastResult s sid SocketEvent.FILE_CREATED (Payload.pair parentDirId newFile)

/-- `SocketEvent.FILE_UPDATED` handler (lines 180–187). -/
def handleFileUpdated (s : ServerState) (sid : SocketId)
    (fileId newContent : String) : HandlerResult :=
  roomBroadcastResult s sid SocketEvent.FILE_UPDATED (Payload.pair fileId newContent)

/-- `SocketEvent.FILE_RENAMED` handler (lines 189–196). -/
def handleFileRenamed (s : ServerState) (sid : SocketId)
    (fileId newName : String) : HandlerResult :=
  roomBroadcastResult s sid SocketEvent.FILE_RENAMED (Payload.pair fileId newName)

/-- `SocketEvent.FILE_DELETED` handler (lines 198–202). -/
def handleFileDeleted (s : ServerState) (sid : SocketId)
    (fileId : String) : HandlerResult :=
  roomBroadcastResult s sid SocketEvent.FILE_DELETED (Payload.single fileId)

/-- `SocketEvent.DRAWING_UPDATE` handler (lines 266–270). -/
def handleDrawingUpdate (s : ServerState) (sid : SocketId)
    (snapshot : String) : HandlerResult :=
  roomBroadcastResult s sid SocketEvent.DRAWING_UPDATE (Payload.single snapshot)

/-- `SocketEvent.REQUEST_DRAWING` handler (lines 254–260); the payload
is the sender's own socket id. -/
def handleRequestDrawing (s : ServerState) (sid : SocketId) : HandlerResult :=
  roomBroadcastResult s sid SocketEvent.REQUEST_DRAWING (Payload.socketId sid)

/-- `SocketEvent.USER_OFFLINE` handler (server.ts lines 204–213): set
the status of every row whose socketId is the payload's `socketId` to
OFFLINE, then broadcast to the target's room (looked up in the updated
registry) excluding the sending socket. -/
def handleUserOffline (s : ServerState) (sid : SocketId) (target : SocketId) :
    HandlerResult :=
  let m1 := s.userSocketMap.map (fun u =>
    if u.socketId == target then { u with status := Status.offline } else u)
  match getRoomId m1 target with
  | none => { state := { s with userSocketMap := m1 }, out := [] }
  | some roomId =>
    { state := { s with userSocketMap := m1 }
      out := broadcastToRoom s.groups sid roomId
        SocketEvent.USER_OFFLINE (Payload.socketId target) }

/-- `SocketEvent.USER_ONLINE` handler (server.ts lines 215–224). -/
def handleUserOnline (s : ServerState) (sid : SocketId) (target : SocketId) :
    HandlerResult :=
  let m1 := s.userSocketMap.map (fun u =>
    if u.socketId == target then { u with status := Status.online } else u)
  match getRoomId m1 target with
  | none => { state := { s with userSocketMap := m1 }, out := [] }
  | some roomId =>
    { state := { s with userSocketMap := m1 }
      out := broadcastToRoom s.groups sid roomId
        SocketEvent.USER_ONLINE (Payload.socketId target) }

/-- `SocketEvent.TYPING_START` handler (server.ts lines 232–242): mark
the sender's row typing with the new cursor position, then broadcast
the updated row to the sender's room. -/
def handleTypingStart (s : ServerState) (sid : SocketId) (cursorPosition : Nat) :
    HandlerResult :=
  let m1 := s.userSocketMap.map (fun u =>
    if u.socketId == sid then { u with typing := true, cursorPosition := cursorPosition } else u)
  match getUserBySocketId m1 sid with
  | none => { state := { s with userSocketMap := m1 }, out := [] }
  | some user =>
    { state := { s with userSocketMap := m1 }
      out := broadcastToRoom s.groups sid user.roomId
        SocketEvent.TYPING_START (Payload.user user) }

/-- `SocketEvent.TYPING_PAUSE` handler (server.ts lines 244–252). -/
def handleTypingPause (s : ServerState) (sid : SocketId) : HandlerResult :=
  let m1 := s.userSocketMap.map (fun u =>
    if u.socketId == sid then { u with typing := false } else u)
  match getUserBySocketId m1 sid with
  | none => { state := { s with userSocketMap := m1 }, out := [] }
  | some user =>
    { state := { s with userSocketMap := m1 }
      out := broadcastToRoom s.groups sid user.roomId
        SocketEvent.TYPING_PAUSE (Payload.user user) }

/-- `SocketEvent.SYNC_FILE_STRUCTURE` handler (server.ts lines 130–136):
unicast to the socket named in the payload. -/
def handleSyncFileStructure (s : ServerState)
    (fileStructure openFiles activeFile : String) (target : SocketId) : HandlerResult :=
  { state := s
    out := unicast target SocketEvent.SYNC_FILE_STRUCTURE
      (Payload.sync3 fileStructure openFiles activeFile) }

/-- `SocketEvent.SYNC_DRAWING` handler (server.ts lines 262–264):
`socket.broadcast.to(socketId)` delivers to the room named after the
target socket id — i.e. to the target socket, unless it is the sender
itself (broadcast always excludes the sender). -/
def handleSyncDrawing (s : ServerState) (sid : SocketId)
    (drawingData : String) (target : SocketId) : HandlerResult :=
  { state := s
    out := if target = sid then []
      else unicast target SocketEvent.SYNC_DRAWING (Payload.single drawingData) }

/-- The client-to-server events of the protocol, each tagged with the
sending socket id. -/
inductive ClientEvent where
  | joinRequest (sid : SocketId) (roomId username : String)
  | disconnecting (sid : SocketId)
  | sendMessage (sid : SocketId) (message : String)
  | typingStart (sid : SocketId) (cursorPosition : Nat)
  | typingPause (sid : SocketId)
  | userOffline (sid : SocketId) (target : SocketId)
  | userOnline (sid : SocketId) (target : SocketId)
  | fileCreated (sid : SocketId) (parentDirId newFile : String)
  | fileUpdated (sid : SocketId) (fileId newContent : String)
  | fileRenamed (sid : SocketId) (fileId newName : String)
  | fileDeleted (sid : SocketId) (fileId : String)
  | directoryCreated (sid : SocketId) (parentDirId newDirectory : String)
  | directoryUpdated (sid : SocketId) (dirId children : String)
  | directoryRenamed (sid : SocketId) (dirId newName : String)
  | directoryDeleted (sid : SocketId) (dirId : String)
  | drawingUpdate (sid : SocketId) (snapshot : String)
  | requestDrawing (sid : SocketId)
  | syncFileStructure (sid : SocketId) (fileStructure openFiles activeFile : String) (target : SocketId)
  | syncDrawing (sid : SocketId) (drawingData : String) (target : SocketId)
deriving DecidableEq, Repr

/-- Dispatch one inbound event to its handler. The persistence sink is
fire-and-forget and cannot affect state or deliveries (proved below),
so the trace semantics fixes it to success. -/
def stepResult (s : ServerState) : ClientEvent → HandlerResult
  | ClientEvent.joinRequest sid roomId username =>
      handleJoinRequest s sid roomId username (Except.ok ())
  | ClientEvent.disconnecting sid => handleDisconnecting s sid
  | ClientEvent.sendMessage sid message => handleSendMessage s sid message
  | ClientEvent.typingStart sid cursorPosition => handleTypingStart s sid cursorPosition
  | ClientEvent.typingPause sid => handleTypingPause s sid
  | ClientEvent.userOffline sid target => handleUserOffline s sid target
  | ClientEvent.userOnline sid target => handleUserOnline s sid target
  | ClientEvent.fileCreated sid a b => handleFileCreated s sid a b
  | ClientEvent.fileUpdated sid a b => handleFileUpdated s sid a b
  | ClientEvent.fileRenamed sid a b => handleFileRenamed s sid a b
  | ClientEvent.fileDeleted sid a => handleFileDeleted s sid a
  | ClientEvent.directoryCreated sid a b => handleDirectoryCreated s sid a b
  | ClientEvent.directoryUpdated sid a b => handleDirectoryUpdated s sid a b
  | ClientEvent.directoryRenamed sid a b => handleDirectoryRenamed s sid a b
  | ClientEvent.directoryDeleted sid a => handleDirectoryDeleted s sid a
  | ClientEvent.drawingUpdate sid a => handleDrawingUpdate s sid a
  | ClientEvent.requestDrawing sid => handleRequestDrawing s sid
  | ClientEvent.syncFileStructure _ a b c target => handleSyncFileStructure s a b c target
  | ClientEvent.syncDrawing sid a target => handleSyncDrawing s sid a target

/-- State reached after one event. -/
def step (s : ServerState) (e : ClientEvent) : ServerState :=
  (stepResult s e).state

/-- State reached after a sequence of events. -/
def runEvents (s : ServerState) (evs : List ClientEvent) : ServerState :=
  evs.foldl step s

/-! ## Derived predicates and example states -/

/-- No two registry rows share a socket id. -/
def socketIdsDistinct (m : List User) : Prop :=
  m.Pairwise (fun a b => a.socketId ≠ b.socketId)

instance (m : List User) : Decidable (socketIdsDistinct m) := by
  unfold socketIdsDistinct
  exact List.instDecidablePairwise m

/-- The room-broadcast event family of the protocol, as sent by `sid`
on its own behalf (for the status toggles: targeting itself). -/
def isRoomBroadcastEvent (sid : SocketId) : ClientEvent → Bool
  | ClientEvent.sendMessage s _ => s == sid
  | ClientEvent.typingStart s _ => s == sid
  | ClientEvent.typingPause s => s == sid
  | ClientEvent.userOffline s t => s == sid && t == sid
  | ClientEvent.userOnline s t => s == sid && t == sid
  | ClientEvent.fileCreated s _ _ => s == sid
  | ClientEvent.fileUpdated s _ _ => s == sid
  | ClientEvent.fileRenamed s _ _ => s == sid
  | ClientEvent.fileDeleted s _ => s == sid
  | ClientEvent.directoryCreated s _ _ => s == sid
  | ClientEvent.directoryUpdated s _ _ => s == sid
  | ClientEvent.directoryRenamed s _ _ => s == sid
  | ClientEvent.directoryDeleted s _ => s == sid
  | ClientEvent.drawingUpdate s _ => s == sid
  | ClientEvent.requestDrawing s => s == sid
  | _ => false

/-- The full room-broadcast event family as sent by `sid`, with the
status toggles allowed to name an arbitrary target connection (the
server accepts toggles sent on behalf of a peer). -/
def isRoomBroadcastAnyTarget (sid : SocketId) : ClientEvent → Bool
  | ClientEvent.userOffline s _ => s == sid
  | ClientEvent.userOnline s _ => s == sid
  | e => isRoomBroadcastEvent sid e

/-- The room-broadcast events that look up the room of the *sending*
socket (all of the family except the status toggles, which look up the
payload's target connection instead). -/
def isSenderKeyedBroadcast (sid : SocketId) : ClientEvent → Bool
  | ClientEvent.sendMessage s _ => s == sid
  | ClientEvent.typingStart s _ => s == sid
  | ClientEvent.typingPause s => s == sid
  | ClientEvent.fileCreated s _ _ => s == sid
  | ClientEvent.fileUpdated s _ _ => s == sid
  | ClientEvent.fileRenamed s _ _ => s == sid
  | ClientEvent.fileDeleted s _ => s == sid
  | ClientEvent.directoryCreated s _ _ => s == sid
  | ClientEvent.directoryUpdated s _ _ => s == sid
  | ClientEvent.directoryRenamed s _ _ => s == sid
  | ClientEvent.directoryDeleted s _ => s == sid
  | ClientEvent.drawingUpdate s _ => s == sid
  | ClientEvent.requestDrawing s => s == sid
  | _ => false

/-- An event constraining which join requests appear: a join event is
only admitted when its connection has no registry row yet. -/
def eventFreshJoin (s : ServerState) : ClientEvent → Bool
  | ClientEvent.joinRequest sid _ _ => (getUserBySocketId s.userSocketMap sid).isNone
  | _ => true

/-- A trace in which every join request arrives on a connection that is
not currently registered. -/
def joinFresh : ServerState → List ClientEvent → Bool
  | _, [] => true
  | s, e :: rest => eventFreshJoin s e && joinFresh (step s e) rest

/-- Example state: alice on socket c1 and bob on socket c2, both in
room r1, reached by two join requests. -/
def stateAliceBob : ServerState :=
  runEvents initialState
    [ClientEvent.joinRequest "c1" "r1" "alice",
     ClientEvent.joinRequest "c2" "r1" "bob"]

/-- Example state: alice joined room r1 on socket c1 and then went
OFFLINE via a `user-offline` event. -/
def stateAliceOffline : ServerState :=
  runEvents initialState
    [ClientEvent.joinRequest "c1" "r1" "alice",
     ClientEvent.userOffline "c1" "c1"]

/-- Example state: alice(c1) and carol(c3) in room r1, bob(c2) in room
r2, reached by three join requests. -/
def stateAliceBobCarol : ServerState :=
  runEvents initialState
    [ClientEvent.joinRequest "c1" "r1" "alice",
     ClientEvent.joinRequest "c2" "r2" "bob",
     ClientEvent.joinRequest "c3" "r1" "carol"]

/-! ## Helper lemmas -/

theorem roomBroadcastResult_state (s : ServerState) (sid : SocketId)
    (ev : SocketEvent) (p : Payload) : (roomBroadcastResult s sid ev p).state = s := by
  unfold roomBroadcastResult
  cases getRoomId s.userSocketMap sid <;> rfl

theorem broadcastToRoom_target_ne_sender {g : List (SocketId × String)}
    {sender : SocketId} {roomId : String} {ev : SocketEvent} {p : Payload}
    {d : Delivery} (hd : d ∈ broadcastToRoom g sender roomId ev p) :
    d.target ≠ sender := by
  unfold broadcastToRoom at hd
  obtain ⟨c, hc, rfl⟩ := List.mem_map.mp hd
  simpa using (List.mem_filter.mp hc).2

theorem broadcastToRoom_event {g : List (SocketId × String)}
    {sender : SocketId} {roomId : String} {ev : SocketEvent} {p : Payload}
    {d : Delivery} (hd : d ∈ broadcastToRoom g sender roomId ev p) :
    d.event = ev ∧ d.payload = p ∧ d.target ∈ roomMembers g roomId := by
  unfold broadcastToRoom at hd
  obtain ⟨c, hc, rfl⟩ := List.mem_map.mp hd
  exact ⟨rfl, rfl, (List.mem_filter.mp hc).1⟩

theorem broadcastToRoom_covers {g : List (SocketId × String)}
    {sender : SocketId} {roomId : String} (ev : SocketEvent) (p : Payload)
    {c : SocketId} (hc : c ∈ roomMembers g roomId) (hne : c ≠ sender) :
    Delivery.mk c ev p ∈ broadcastToRoom g sender roomId ev p := by
  unfold broadcastToRoom
  exact List.mem_map.mpr ⟨c, List.mem_filter.mpr ⟨hc, by simpa using hne⟩, rfl⟩

theorem find?_socketId_map (m : List User) (sid : SocketId) (f : User → User)
    (hf : ∀ u, (f u).socketId = u.socketId) :
    (m.map f).find? (fun u => u.socketId == sid)
      = (m.find? (fun u => u.socketId == sid)).map f := by
  rw [List.find?_map]
  have hfun : ((fun u : User => u.socketId == sid) ∘ f)
      = (fun u : User => u.socketId == sid) := by
    funext u
    simp [Function.comp, hf]
  rw [hfun]

/-- Unfolding of a successful join: when no user of the requested room
holds the username, the handler appends the new participant, joins the
transport group, broadcasts `user-joined` and unicasts `join-accepted`. -/
theorem joinRequest_success_core (s : ServerState) (sid : SocketId)
    (roomId username : String) (res : Except String Unit)
    (h : (getUsersInRoom s.userSocketMap roomId).any
      (fun u => u.username == username) = false) :
    handleJoinRequest s sid roomId username res =
      { state := { userSocketMap := s.userSocketMap ++ [joinUser sid roomId username]
                   groups := joinGroup s.groups sid roomId }
        out := broadcastToRoom (joinGroup s.groups sid roomId) sid roomId
                 SocketEvent.USER_JOINED (Payload.user (joinUser sid roomId username))
               ++ [Delivery.mk sid SocketEvent.JOIN_ACCEPTED
                    (Payload.userAndUsers (joinUser sid roomId username)
                      (getUsersInRoom
                        (s.userSocketMap ++ [joinUser sid roomId username]) roomId))]
        logs := match res with
                | Except.ok _ => []
                | Except.error e => ["Error saving user to MongoDB: " ++ e] } := by
  simp [handleJoinRequest, h, unicast]

theorem roomBroadcastResult_none (s : ServerState) (sid : SocketId)
    (ev : SocketEvent) (p : Payload)
    (hroom : getRoomId s.userSocketMap sid = none) :
    roomBroadcastResult s sid ev p = { state := s, out := [] } := by
  unfold roomBroadcastResult
  rw [hroom]

/-- A per-socket registry update is the identity when the socket has no
registry row. -/
theorem update_map_miss (m : List User) (sid : SocketId) (g : User → User)
    (hmiss : getUserBySocketId m sid = none) :
    m.map (fun u => if u.socketId == sid then g u else u) = m := by
  have h := List.find?_eq_none.mp hmiss
  conv_rhs => rw [← List.map_id m]
  apply List.map_congr_left
  intro a ha
  have hne := h a ha
  simp only [id]
  rw [if_neg (by simpa using hne)]

theorem getRoomId_none_of_no_row (m : List User) (sid : SocketId)
    (hmiss : getUserBySocketId m sid = none) : getRoomId m sid = none := by
  unfold getRoomId
  unfold getUserBySocketId at hmiss
  rw [hmiss]

theorem socketIdsDistinct_map (m : List User) (f : User → User)
    (hf : ∀ u, (f u).socketId = u.socketId) (hd : socketIdsDistinct m) :
    socketIdsDistinct (m.map f) := by
  unfold socketIdsDistinct at hd ⊢
  exact List.Pairwise.map f (fun a b hab => by rw [hf, hf]; exact hab) hd

theorem socketIdsDistinct_append_fresh (m : List User) (u : User)
    (hd : socketIdsDistinct m) (hfresh : ∀ v ∈ m, v.socketId ≠ u.socketId) :
    socketIdsDistinct (m ++ [u]) := by
  unfold socketIdsDistinct at hd ⊢
  rw [List.pairwise_append]
  refine ⟨hd, by simp, ?_⟩
  intro a ha b hb
  rw [List.mem_singleton.mp hb]
  exact hfresh a ha

/-- Every event preserves socket-id distinctness of the registry,
provided no join request arrives on an already-registered connection. -/
theorem step_preserves_socketIdsDistinct (s : ServerState) (e : ClientEvent)
    (hfresh : eventFreshJoin s e = true)
    (hd : socketIdsDistinct s.userSocketMap) :
    socketIdsDistinct (step s e).userSocketMap := by
  have hstatus_off : ∀ t : SocketId, ∀ u : User,
      ((if u.socketId == t then { u with status := Status.offline } else u) : User).socketId
        = u.socketId := by
    intro t u
    split <;> rfl
  have hstatus_on : ∀ t : SocketId, ∀ u : User,
      ((if u.socketId == t then { u with status := Status.online } else u) : User).socketId
        = u.socketId := by
    intro t u
    split <;> rfl
  cases e with
  | joinRequest sid roomId username =>
    have hmiss : getUserBySocketId s.userSocketMap sid = none := by
      simpa [eventFreshJoin, Option.isNone_iff_eq_none] using hfresh
    show socketIdsDistinct
      (handleJoinRequest s sid roomId username (Except.ok ())).state.userSocketMap
    cases hex : (getUsersInRoom s.userSocketMap roomId).any
        (fun u => u.username == username) with
    | true => simpa [handleJoinRequest, hex] using hd
    | false =>
      rw [joinRequest_success_core _ _ _ _ _ hex]
      apply socketIdsDistinct_append_fresh _ _ hd
      intro v hv
      have hne := List.find?_eq_none.mp hmiss v hv
      simpa [joinUser] using hne
  | disconnecting sid =>
    show socketIdsDistinct (handleDisconnecting s sid).state.userSocketMap
    unfold handleDisconnecting
    cases hfind : getUserBySocketId s.userSocketMap sid with
    | none => exact hd
    | some u => exact List.Pairwise.sublist (List.filter_sublist _) hd
  | sendMessage sid m => simpa [step, stepResult, handleSendMessage, roomBroadcastResult_state] using hd
  | typingStart sid cp =>
    show socketIdsDistinct (handleTypingStart s sid cp).state.userSocketMap
    unfold handleTypingStart
    dsimp only
    split <;>
      exact socketIdsDistinct_map _ _ (fun u => by split <;> rfl) hd
  | typingPause sid =>
    show socketIdsDistinct (handleTypingPause s sid).state.userSocketMap
    unfold handleTypingPause
    dsimp only
    split <;>
      exact socketIdsDistinct_map _ _ (fun u => by split <;> rfl) hd
  | userOffline sid t =>
    show socketIdsDistinct (handleUserOffline s sid t).state.userSocketMap
    unfold handleUserOffline
    dsimp only
    split <;> exact socketIdsDistinct_map _ _ (hstatus_off t) hd
  | userOnline sid t =>
    show socketIdsDistinct (handleUserOnline s sid t).state.userSocketMap
    unfold handleUserOnline
    dsimp only
    split <;> exact socketIdsDistinct_map _ _ (hstatus_on t) hd
  | fileCreated sid a b => simpa [step, stepResult, handleFileCreated, roomBroadcastResult_state] using hd
  | fileUpdated sid a b => simpa [step, stepResult, handleFileUpdated, roomBroadcastResult_state] using hd
  | fileRenamed sid a b => simpa [step, stepResult, handleFileRenamed, roomBroadcastResult_state] using hd
  | fileDeleted sid a => simpa [step, stepResult, handleFileDeleted, roomBroadcastResult_state] using hd
  | directoryCreated sid a b => simpa [step, stepResult, handleDirectoryCreated, roomBroadcastResult_state] using hd
  | directoryUpdated sid a b => simpa [step, stepResult, handleDirectoryUpdated, roomBroadcastResult_state] using hd
  | directoryRenamed sid a b => simpa [step, stepResult, handleDirectoryRenamed, roomBroadcastResult_state] using hd
  | directoryDeleted sid a => simpa [step, stepResult, handleDirectoryDeleted, roomBroadcastResult_state] using hd
  | drawingUpdate sid a => simpa [step, stepResult, handleDrawingUpdate, roomBroadcastResult_state] using hd
  | requestDrawing sid => simpa [step, stepResult, handleRequestDrawing, roomBroadcastResult_state] using hd
  | syncFileStructure sid a b c t => simpa [step, stepResult, handleSyncFileStructure] using hd
  | syncDrawing sid a t => simpa [step, stepResult, handleSyncDrawing] using hd

/-! ## Claim theorems -/

/-- C10. The fire-and-forget persistence call never changes the join's
outcome: for every join request, the resulting registry/group state and
the full list of deliveries are identical whether the persistence sink
succeeds or fails; a sink error is never propagated to any client. -/
theorem joinRequest_sink_independent (s : ServerState) (sid : SocketId)
    (roomId username : String) (res₁ res₂ : Except String Unit) :
    (handleJoinRequest s sid roomId username res₁).state
      = (handleJoinRequest s sid roomId username res₂).state ∧
    (handleJoinRequest s sid roomId username res₁).out
      = (handleJoinRequest s sid roomId username res₂).out := by
  cases h : (getUsersInRoom s.userSocketMap roomId).any (fun u => u.username == username) <;>
    simp [handleJoinRequest, h]

/-- C4. If some ONLINE member of the room already holds the requested
username, the join is rejected atomically: the state (registry and
groups) is unchanged, and the only delivery is `username-exists` to the
requesting connection. -/
theorem joinRequest_online_conflict_rejected (s : ServerState) (sid : SocketId)
    (roomId username : String) (res : Except String Unit)
    (h : ∃ u ∈ getUsersInRoom s.userSocketMap roomId,
      u.status = Status.online ∧ u.username = username) :
    (handleJoinRequest s sid roomId username res).state = s ∧
    (handleJoinRequest s sid roomId username res).out
      = [Delivery.mk sid SocketEvent.USERNAME_EXISTS Payload.empty] := by
  obtain ⟨u, hu, _, huname⟩ := h
  have hex : (getUsersInRoom s.userSocketMap roomId).any
      (fun u => u.username == username) = true :=
    List.any_eq_true.mpr ⟨u, hu, by simp [huname]⟩
  simp [handleJoinRequest, hex, unicast]

theorem joinRequest_online_conflict_rejected_witness :
    (∃ u ∈ getUsersInRoom stateAliceBob.userSocketMap "r1",
      u.status = Status.online ∧ u.username = "alice") ∧
    (handleJoinRequest stateAliceBob "c3" "r1" "alice" (Except.ok ())).state
      = stateAliceBob ∧
    (handleJoinRequest stateAliceBob "c3" "r1" "alice" (Except.ok ())).out
      = [Delivery.mk "c3" SocketEvent.USERNAME_EXISTS Payload.empty] :=
  ⟨by decide,
    (joinRequest_online_conflict_rejected stateAliceBob "c3" "r1" "alice"
      (Except.ok ()) (by decide)).1,
    (joinRequest_online_conflict_rejected stateAliceBob "c3" "r1" "alice"
      (Except.ok ()) (by decide)).2⟩

/-- C1 counterexample. A second join request arriving on an
already-registered connection does insert a second registry row with
the same socketId: after `join(c1,r1,alice)` then `join(c1,r1,bob)`,
socket id c1 occurs twice in `userSocketMap`. -/
theorem joinRequest_duplicate_socketId_cex :
    ¬ socketIdsDistinct (runEvents initialState
      [ClientEvent.joinRequest "c1" "r1" "alice",
       ClientEvent.joinRequest "c1" "r1" "bob"]).userSocketMap ∧
    ((runEvents initialState
      [ClientEvent.joinRequest "c1" "r1" "alice",
       ClientEvent.joinRequest "c1" "r1" "bob"]).userSocketMap.filter
        (fun u => u.socketId == "c1")).length = 2 := by
  decide

/-- C2 counterexample. A join request with an empty roomId is not
rejected: from the empty state, `join(c1, "", alice)` changes the
registry (inserting a participant whose roomId is `""`) and emits
`join-accepted` to the requester — no room-required error exists. -/
theorem joinRequest_empty_roomId_cex :
    (handleJoinRequest initialState "c1" "" "alice" (Except.ok ())).state
      ≠ initialState ∧
    (handleJoinRequest initialState "c1" "" "alice" (Except.ok ())).state.userSocketMap
      = [joinUser "c1" "" "alice"] ∧
    ((handleJoinRequest initialState "c1" "" "alice" (Except.ok ())).out.map
      (fun d => d.event)) = [SocketEvent.JOIN_ACCEPTED] := by
  decide

/-- C3 counterexample. A username held solely by an OFFLINE member does
block the join: with alice OFFLINE in r1 on socket c1, a join request
for username alice on socket c2 is rejected with `username-exists` and
no insertion, although no ONLINE member of r1 holds the name. -/
theorem joinRequest_offline_username_cex :
    ((getUsersInRoom stateAliceOffline.userSocketMap "r1").filter
      (fun u => u.status == Status.online && u.username == "alice")).length = 0 ∧
    (stepResult stateAliceOffline
      (ClientEvent.joinRequest "c2" "r1" "alice")).state = stateAliceOffline ∧
    (stepResult stateAliceOffline
      (ClientEvent.joinRequest "c2" "r1" "alice")).out
      = [Delivery.mk "c2" SocketEvent.USERNAME_EXISTS Payload.empty] := by
  decide

/-- C8 counterexample. A `user-offline` event sent by a connection with
no registry row is not dropped: with alice(c1) and bob(c2) in r1, the
unregistered sender c3 emitting `user-offline{socketId:c1}` mutates the
registry (c1's status) and is delivered to both c1 and c2. -/
theorem userOffline_unregistered_sender_cex :
    getRoomId stateAliceBob.userSocketMap "c3" = none ∧
    getUserBySocketId stateAliceBob.userSocketMap "c3" = none ∧
    (stepResult stateAliceBob (ClientEvent.userOffline "c3" "c1")).out
      = [Delivery.mk "c1" SocketEvent.USER_OFFLINE (Payload.socketId "c1"),
         Delivery.mk "c2" SocketEvent.USER_OFFLINE (Payload.socketId "c1")] ∧
    (stepResult stateAliceBob (ClientEvent.userOffline "c3" "c1")).state.userSocketMap
      ≠ stateAliceBob.userSocketMap := by
  decide

/-- C5. On every successful join: the new participant carries status
ONLINE, cursorPosition 0, typing false and no current file; it is
appended to the registry; `user-joined {user}` is delivered to every
other member of the room's transport group and never to the joiner;
`join-accepted {user, users}` is delivered to the joining connection
only, with `users` the full post-insertion roster of the room, which
contains the joiner. -/
theorem joinRequest_success_spec (s : ServerState) (sid : SocketId)
    (roomId username : String) (res : Except String Unit)
    (h : (getUsersInRoom s.userSocketMap roomId).any
      (fun u => u.username == username) = false) :
    (joinUser sid roomId username).status = Status.online ∧
    (joinUser sid roomId username).cursorPosition = 0 ∧
    (joinUser sid roomId username).typing = false ∧
    (joinUser sid roomId username).currentFile = none ∧
    (handleJoinRequest s sid roomId username res).state.userSocketMap
      = s.userSocketMap ++ [joinUser sid roomId username] ∧
    (∀ c ∈ roomMembers (handleJoinRequest s sid roomId username res).state.groups roomId,
      c ≠ sid →
      Delivery.mk c SocketEvent.USER_JOINED (Payload.user (joinUser sid roomId username))
        ∈ (handleJoinRequest s sid roomId username res).out) ∧
    (∀ d ∈ (handleJoinRequest s sid roomId username res).out,
      d.event = SocketEvent.USER_JOINED → d.target ≠ sid) ∧
    (∀ d ∈ (handleJoinRequest s sid roomId username res).out,
      d.event = SocketEvent.JOIN_ACCEPTED → d.target = sid ∧
        d.payload = Payload.userAndUsers (joinUser sid roomId username)
          (getUsersInRoom
            (handleJoinRequest s sid roomId username res).state.userSocketMap roomId)) ∧
    Delivery.mk sid SocketEvent.JOIN_ACCEPTED
      (Payload.userAndUsers (joinUser sid roomId username)
        (getUsersInRoom
          (handleJoinRequest s sid roomId username res).state.userSocketMap roomId))
      ∈ (handleJoinRequest s sid roomId username res).out ∧
    joinUser sid roomId username
      ∈ getUsersInRoom
          (handleJoinRequest s sid roomId username res).state.userSocketMap roomId := by
  rw [joinRequest_success_core s sid roomId username res h]
  refine ⟨rfl, rfl, rfl, rfl, rfl, ?_, ?_, ?_, ?_, ?_⟩
  · intro c hc hne
    exact List.mem_append_left _ (broadcastToRoom_covers _ _ hc hne)
  · intro d hd hev
    rcases List.mem_append.mp hd with hb | hs
    · exact broadcastToRoom_target_ne_sender hb
    · rw [List.mem_singleton.mp hs] at hev
      simp at hev
  · intro d hd hev
    rcases List.mem_append.mp hd with hb | hs
    · rw [(broadcastToRoom_event hb).1] at hev
      simp at hev
    · rw [List.mem_singleton.mp hs]
      exact ⟨rfl, rfl⟩
  · exact List.mem_append_right _ (List.mem_singleton.mpr rfl)
  · simp [getUsersInRoom, List.filter_append, joinUser]

theorem joinRequest_success_spec_witness :
    ((getUsersInRoom stateAliceBob.userSocketMap "r1").any
      (fun u => u.username == "carol") = false) ∧
    (handleJoinRequest stateAliceBob "c3" "r1" "carol" (Except.ok ())).state.userSocketMap
      = stateAliceBob.userSocketMap ++ [joinUser "c3" "r1" "carol"] ∧
    Delivery.mk "c1" SocketEvent.USER_JOINED (Payload.user (joinUser "c3" "r1" "carol"))
      ∈ (handleJoinRequest stateAliceBob "c3" "r1" "carol" (Except.ok ())).out :=
  ⟨by decide,
    (joinRequest_success_spec stateAliceBob "c3" "r1" "carol" (Except.ok ())
      (by decide)).2.2.2.2.1,
    (joinRequest_success_spec stateAliceBob "c3" "r1" "carol" (Except.ok ())
      (by decide)).2.2.2.2.2.1 "c1" (by decide) (by decide)⟩

/-- C2 amended. A join request with an empty roomId is not specially
rejected: no room-required error event exists; provided the username is
not taken among users whose roomId is `""`, the join proceeds like any
other, inserting a participant whose roomId is the empty string and
answering `join-accepted`; `username-exists` is never emitted. -/
theorem joinRequest_empty_roomId_proceeds (s : ServerState) (sid : SocketId)
    (username : String) (res : Except String Unit)
    (h : (getUsersInRoom s.userSocketMap "").any
      (fun u => u.username == username) = false) :
    (handleJoinRequest s sid "" username res).state.userSocketMap
      = s.userSocketMap ++ [joinUser sid "" username] ∧
    Delivery.mk sid SocketEvent.JOIN_ACCEPTED
      (Payload.userAndUsers (joinUser sid "" username)
        (getUsersInRoom (s.userSocketMap ++ [joinUser sid "" username]) ""))
      ∈ (handleJoinRequest s sid "" username res).out ∧
    (∀ d ∈ (handleJoinRequest s sid "" username res).out,
      d.event ≠ SocketEvent.USERNAME_EXISTS) := by
  rw [joinRequest_success_core s sid "" username res h]
  refine ⟨rfl, List.mem_append_right _ (List.mem_singleton.mpr rfl), ?_⟩
  intro d hd
  rcases List.mem_append.mp hd with hb | hs
  · rw [(broadcastToRoom_event hb).1]
    simp
  · rw [List.mem_singleton.mp hs]
    simp

theorem joinRequest_empty_roomId_proceeds_witness :
    ((getUsersInRoom initialState.userSocketMap "").any
      (fun u => u.username == "alice") = false) ∧
    (handleJoinRequest initialState "c1" "" "alice" (Except.ok ())).state.userSocketMap
      = initialState.userSocketMap ++ [joinUser "c1" "" "alice"] :=
  ⟨by decide,
    (joinRequest_empty_roomId_proceeds initialState "c1" "alice" (Except.ok ())
      (by decide)).1⟩

/-- C3 amended. The username check ranges over every member of the
room regardless of connection status: whenever no member of the room —
ONLINE, AWAY or OFFLINE — holds the requested username, the join is
accepted (participant inserted, `join-accepted` to the requester only);
conversely a username held solely by OFFLINE or AWAY members does block
the join (see the counterexample). -/
theorem joinRequest_accepts_when_username_absent (s : ServerState) (sid : SocketId)
    (roomId username : String) (res : Except String Unit)
    (h : ∀ u ∈ getUsersInRoom s.userSocketMap roomId, u.username ≠ username) :
    (handleJoinRequest s sid roomId username res).state.userSocketMap
      = s.userSocketMap ++ [joinUser sid roomId username] ∧
    Delivery.mk sid SocketEvent.JOIN_ACCEPTED
      (Payload.userAndUsers (joinUser sid roomId username)
        (getUsersInRoom (s.userSocketMap ++ [joinUser sid roomId username]) roomId))
      ∈ (handleJoinRequest s sid roomId username res).out ∧
    (∀ d ∈ (handleJoinRequest s sid roomId username res).out,
      d.event = SocketEvent.JOIN_ACCEPTED → d.target = sid) := by
  have hany : (getUsersInRoom s.userSocketMap roomId).any
      (fun u => u.username == username) = false := by
    rw [List.any_eq_false]
    intro u hu
    simpa using h u hu
  rw [joinRequest_success_core s sid roomId username res hany]
  refine ⟨rfl, List.mem_append_right _ (List.mem_singleton.mpr rfl), ?_⟩
  intro d hd hev
  rcases List.mem_append.mp hd with hb | hs
  · rw [(broadcastToRoom_event hb).1] at hev
    simp at hev
  · rw [List.mem_singleton.mp hs]

theorem joinRequest_accepts_when_username_absent_witness :
    (∀ u ∈ getUsersInRoom stateAliceOffline.userSocketMap "r1",
      u.username ≠ "carol") ∧
    (handleJoinRequest stateAliceOffline "c2" "r1" "carol" (Except.ok ())).state.userSocketMap
      = stateAliceOffline.userSocketMap ++ [joinUser "c2" "r1" "carol"] :=
  ⟨by decide,
    (joinRequest_accepts_when_username_absent stateAliceOffline "c2" "r1" "carol"
      (Except.ok ()) (by decide)).1⟩

/-- C1 amended. Socket-id uniqueness of the registry is preserved by
every event sequence in which no join request arrives on a connection
that already has a registry row; without that restriction the join
handler re-inserts (see the counterexample). -/
theorem socketId_unique_of_fresh_joins (evs : List ClientEvent) (s : ServerState)
    (hd : socketIdsDistinct s.userSocketMap)
    (hfresh : joinFresh s evs = true) :
    socketIdsDistinct (runEvents s evs).userSocketMap := by
  induction evs generalizing s with
  | nil => simpa [runEvents] using hd
  | cons e rest ih =>
    have hsplit := hfresh
    rw [joinFresh, Bool.and_eq_true] at hsplit
    have hstep : runEvents s (e :: rest) = runEvents (step s e) rest := rfl
    rw [hstep]
    exact ih (step s e) (step_preserves_socketIdsDistinct s e hsplit.1 hd) hsplit.2

theorem socketId_unique_of_fresh_joins_witness :
    socketIdsDistinct initialState.userSocketMap ∧
    joinFresh initialState
      [ClientEvent.joinRequest "c1" "r1" "alice",
       ClientEvent.joinRequest "c2" "r1" "bob",
       ClientEvent.userOffline "c1" "c1",
       ClientEvent.disconnecting "c1"] = true ∧
    socketIdsDistinct (runEvents initialState
      [ClientEvent.joinRequest "c1" "r1" "alice",
       ClientEvent.joinRequest "c2" "r1" "bob",
       ClientEvent.userOffline "c1" "c1",
       ClientEvent.disconnecting "c1"]).userSocketMap :=
  ⟨by decide, by decide,
    socketId_unique_of_fresh_joins
      [ClientEvent.joinRequest "c1" "r1" "alice",
       ClientEvent.joinRequest "c2" "r1" "bob",
       ClientEvent.userOffline "c1" "c1",
       ClientEvent.disconnecting "c1"]
      initialState (by decide) (by decide)⟩

/-- C8 amended. Every room-broadcast event that keys on the *sending*
connection (send-message, typing start/pause, the file and directory
events, drawing-update, request-drawing) is dropped silently when the
sender has no registry row: nothing is delivered to anyone and the
state is unchanged. The status toggles `user-online`/`user-offline`
are excluded: they look up the payload's target connection, not the
sender (see the counterexample). -/
theorem senderKeyed_broadcast_dropped_when_unregistered (s : ServerState)
    (sid : SocketId) (e : ClientEvent)
    (hev : isSenderKeyedBroadcast sid e = true)
    (hmiss : getUserBySocketId s.userSocketMap sid = none) :
    (stepResult s e).out = [] ∧ (stepResult s e).state = s := by
  have hroom : getRoomId s.userSocketMap sid = none :=
    getRoomId_none_of_no_row s.userSocketMap sid hmiss
  cases e with
  | sendMessage s0 m =>
    have hs : s0 = sid := by simpa [isSenderKeyedBroadcast] using hev
    subst hs
    simp [stepResult, handleSendMessage, roomBroadcastResult_none _ _ _ _ hroom]
  | typingStart s0 cp =>
    have hs : s0 = sid := by simpa [isSenderKeyedBroadcast] using hev
    subst hs
    have hmap := update_map_miss s.userSocketMap s0
      (fun u => { u with typing := true, cursorPosition := cp }) hmiss
    simp only [stepResult]
    unfold handleTypingStart
    dsimp only
    rw [hmap, hmiss]
    exact ⟨rfl, rfl⟩
  | typingPause s0 =>
    have hs : s0 = sid := by simpa [isSenderKeyedBroadcast] using hev
    subst hs
    have hmap := update_map_miss s.userSocketMap s0
      (fun u => { u with typing := false }) hmiss
    simp only [stepResult]
    unfold handleTypingPause
    dsimp only
    rw [hmap, hmiss]
    exact ⟨rfl, rfl⟩
  | fileCreated s0 a b =>
    have hs : s0 = sid := by simpa [isSenderKeyedBroadcast] using hev
    subst hs
    simp [stepResult, handleFileCreated, roomBroadcastResult_none _ _ _ _ hroom]
  | fileUpdated s0 a b =>
    have hs : s0 = sid := by simpa [isSenderKeyedBroadcast] using hev
    subst hs
    simp [stepResult, handleFileUpdated, roomBroadcastResult_none _ _ _ _ hroom]
  | fileRenamed s0 a b =>
    have hs : s0 = sid := by simpa [isSenderKeyedBroadcast] using hev
    subst hs
    simp [stepResult, handleFileRenamed, roomBroadcastResult_none _ _ _ _ hroom]
  | fileDeleted s0 a =>
    have hs : s0 = sid := by simpa [isSenderKeyedBroadcast] using hev
    subst hs
    simp [stepResult, handleFileDeleted, roomBroadcastResult_none _ _ _ _ hroom]
  | directoryCreated s0 a b =>
    have hs : s0 = sid := by simpa [isSenderKeyedBroadcast] using hev
    subst hs
    simp [stepResult, handleDirectoryCreated, roomBroadcastResult_none _ _ _ _ hroom]
  | directoryUpdated s0 a b =>
    have hs : s0 = sid := by simpa [isSenderKeyedBroadcast] using hev
    subst hs
    simp [stepResult, handleDirectoryUpdated, roomBroadcastResult_none _ _ _ _ hroom]
  | directoryRenamed s0 a b =>
    have hs : s0 = sid := by simpa [isSenderKeyedBroadcast] using hev
    subst hs
    simp [stepResult, handleDirectoryRenamed, roomBroadcastResult_none _ _ _ _ hroom]
  | directoryDeleted s0 a =>
    have hs : s0 = sid := by simpa [isSenderKeyedBroadcast] using hev
    subst hs
    simp [stepResult, handleDirectoryDeleted, roomBroadcastResult_none _ _ _ _ hroom]
  | drawingUpdate s0 a =>
    have hs : s0 = sid := by simpa [isSenderKeyedBroadcast] using hev
    subst hs
    simp [stepResult, handleDrawingUpdate, roomBroadcastResult_none _ _ _ _ hroom]
  | requestDrawing s0 =>
    have hs : s0 = sid := by simpa [isSenderKeyedBroadcast] using hev
    subst hs
    simp [stepResult, handleRequestDrawing, roomBroadcastResult_none _ _ _ _ hroom]
  | joinRequest s0 a b => simp [isSenderKeyedBroadcast] at hev
  | disconnecting s0 => simp [isSenderKeyedBroadcast] at hev
  | userOffline s0 t => simp [isSenderKeyedBroadcast] at hev
  | userOnline s0 t => simp [isSenderKeyedBroadcast] at hev
  | syncFileStructure s0 a b c t => simp [isSenderKeyedBroadcast] at hev
  | syncDrawing s0 a t => simp [isSenderKeyedBroadcast] at hev

theorem senderKeyed_broadcast_dropped_when_unregistered_witness :
    isSenderKeyedBroadcast "c9" (ClientEvent.sendMessage "c9" "hi") = true ∧
    getUserBySocketId stateAliceBob.userSocketMap "c9" = none ∧
    (stepResult stateAliceBob (ClientEvent.sendMessage "c9" "hi")).out = [] ∧
    (stepResult stateAliceBob (ClientEvent.sendMessage "c9" "hi")).state
      = stateAliceBob :=
  ⟨by decide, by decide,
    (senderKeyed_broadcast_dropped_when_unregistered stateAliceBob "c9"
      (ClientEvent.sendMessage "c9" "hi") (by decide) (by decide)).1,
    (senderKeyed_broadcast_dropped_when_unregistered stateAliceBob "c9"
      (ClientEvent.sendMessage "c9" "hi") (by decide) (by decide)).2⟩

theorem roomMembers_nodup (g : List (SocketId × String)) (roomId : String)
    (hg : g.Nodup) : (roomMembers g roomId).Nodup := by
  unfold roomMembers
  apply List.Nodup.map_on
  · intro x hx y hy hxy
    have hx2 : x.2 = roomId := by simpa using (List.mem_filter.mp hx).2
    have hy2 : y.2 = roomId := by simpa using (List.mem_filter.mp hy).2
    exact Prod.ext hxy (hx2.trans hy2.symm)
  · exact List.Nodup.filter _ hg

/-- With distinct socket ids, removing the rows of one socket removes
exactly the row found for it, leaving all others in place. -/
theorem filter_ne_eq_erase (m : List User) (sid : SocketId) (u : User)
    (hd : socketIdsDistinct m)
    (hfind : getUserBySocketId m sid = some u) :
    m.filter (fun v => v.socketId != sid) = m.erase u := by
  unfold getUserBySocketId at hfind
  unfold socketIdsDistinct at hd
  induction m with
  | nil => simp at hfind
  | cons a t ih =>
    by_cases ha : (a.socketId == sid) = true
    · have hfa : (a :: t).find? (fun v => v.socketId == sid) = some a :=
        List.find?_cons_of_pos t ha
      have hu : a = u := by
        rw [hfa] at hfind
        exact Option.some.inj hfind
      subst hu
      rw [List.erase_cons_head]
      have hha : a.socketId = sid := by simpa using ha
      have hrest : ∀ v ∈ t, (v.socketId != sid) = true := by
        intro v hv
        have hav := (List.pairwise_cons.mp hd).1 v hv
        rw [hha] at hav
        simpa using hav.symm
      have hbne : (a.socketId != sid) = false := by simp [bne, ha]
      rw [List.filter_cons_of_neg (by simp [hbne])]
      exact List.filter_eq_self.mpr hrest
    · have hfa : (a :: t).find? (fun v => v.socketId == sid)
          = t.find? (fun v => v.socketId == sid) :=
        List.find?_cons_of_neg t ha
      have hfind' : t.find? (fun v => v.socketId == sid) = some u := by
        rw [hfa] at hfind
        exact hfind
      have hneq : ¬(a == u) = true := by
        intro h
        have hau : a = u := by simpa using h
        subst hau
        have hsat := List.find?_some hfind'
        exact ha hsat
      have hafalse : (a.socketId == sid) = false := by simpa using ha
      rw [List.erase_cons_tail hneq,
        List.filter_cons_of_pos (by simp [bne, hafalse])]
      congr 1
      exact ih (List.pairwise_cons.mp hd).2 hfind'

/-- C7. Disconnecting a registered connection removes exactly its
registry row and delivers exactly one `user-disconnected` event, whose
payload is the removed participant as captured before removal, to each
other member of its room's transport group; nobody outside that room
group receives anything. Disconnecting an unregistered connection is a
no-op. -/
theorem disconnecting_removes_and_notifies (s : ServerState) (sid : SocketId)
    (hg : s.groups.Nodup) :
    (getUserBySocketId s.userSocketMap sid = none →
      (handleDisconnecting s sid).state = s ∧ (handleDisconnecting s sid).out = []) ∧
    (∀ u, getUserBySocketId s.userSocketMap sid = some u →
      socketIdsDistinct s.userSocketMap →
      ((handleDisconnecting s sid).state.userSocketMap = s.userSocketMap.erase u ∧
       (∀ d ∈ (handleDisconnecting s sid).out,
         d.target ∈ roomMembers s.groups u.roomId ∧ d.target ≠ sid ∧
         d.event = SocketEvent.USER_DISCONNECTED ∧ d.payload = Payload.user u) ∧
       (∀ c ∈ roomMembers s.groups u.roomId, c ≠ sid →
         Delivery.mk c SocketEvent.USER_DISCONNECTED (Payload.user u)
           ∈ (handleDisconnecting s sid).out ∧
         ((handleDisconnecting s sid).out.filter
           (fun d => d.target == c)).length = 1))) := by
  constructor
  · intro hmiss
    unfold handleDisconnecting
    rw [hmiss]
    exact ⟨rfl, rfl⟩
  · intro u hfind hd
    have hout : (handleDisconnecting s sid).out
        = broadcastToRoom s.groups sid u.roomId
            SocketEvent.USER_DISCONNECTED (Payload.user u) := by
      unfold handleDisconnecting
      rw [hfind]
    have hmap : (handleDisconnecting s sid).state.userSocketMap
        = s.userSocketMap.filter (fun v => v.socketId != sid) := by
      unfold handleDisconnecting
      rw [hfind]
    refine ⟨?_, ?_, ?_⟩
    · rw [hmap]
      exact filter_ne_eq_erase s.userSocketMap sid u hd hfind
    · intro d hdmem
      rw [hout] at hdmem
      have h1 := broadcastToRoom_event hdmem
      have h2 := broadcastToRoom_target_ne_sender hdmem
      exact ⟨h1.2.2, h2, h1.1, h1.2.1⟩
    · intro c hc hne
      rw [hout]
      refine ⟨broadcastToRoom_covers _ _ hc hne, ?_⟩
      unfold broadcastToRoom
      rw [← List.countP_eq_length_filter, List.countP_map]
      have hcP : ((fun d : Delivery => d.target == c) ∘
          (fun x : SocketId => Delivery.mk x SocketEvent.USER_DISCONNECTED
            (Payload.user u))) = (fun x : SocketId => x == c) := rfl
      rw [hcP]
      have hnodup : ((roomMembers s.groups u.roomId).filter
          (fun x => x ≠ sid)).Nodup :=
        List.Nodup.filter _ (roomMembers_nodup s.groups u.roomId hg)
      have hcmem : c ∈ (roomMembers s.groups u.roomId).filter (fun x => x ≠ sid) :=
        List.mem_filter.mpr ⟨hc, by simpa using hne⟩
      simpa [List.count] using List.count_eq_one_of_mem hnodup hcmem

theorem disconnecting_removes_and_notifies_witness :
    stateAliceBob.groups.Nodup ∧
    getUserBySocketId stateAliceBob.userSocketMap "c1"
      = some (joinUser "c1" "r1" "alice") ∧
    socketIdsDistinct stateAliceBob.userSocketMap ∧
    (handleDisconnecting stateAliceBob "c1").state.userSocketMap
      = stateAliceBob.userSocketMap.erase (joinUser "c1" "r1" "alice") :=
  ⟨by decide, by decide, by decide,
    ((disconnecting_removes_and_notifies stateAliceBob "c1" (by decide)).2
      (joinUser "c1" "r1" "alice") (by decide) (by decide)).1⟩

theorem roomBroadcastResult_some (s : ServerState) (sid : SocketId)
    (ev : SocketEvent) (p : Payload) (ρ : String)
    (hroom : getRoomId s.userSocketMap sid = some ρ) :
    roomBroadcastResult s sid ev p
      = { state := s, out := broadcastToRoom s.groups sid ρ ev p } := by
  unfold roomBroadcastResult
  rw [hroom]

theorem getUserBySocketId_map (m : List User) (sid : SocketId) (f : User → User)
    (hsock : ∀ u, (f u).socketId = u.socketId) :
    getUserBySocketId (m.map f) sid = (getUserBySocketId m sid).map f := by
  unfold getUserBySocketId
  exact find?_socketId_map m sid f hsock

theorem getRoomId_map (m : List User) (sid : SocketId) (f : User → User)
    (hsock : ∀ u, (f u).socketId = u.socketId)
    (hrm : ∀ u, (f u).roomId = u.roomId) :
    getRoomId (m.map f) sid = getRoomId m sid := by
  unfold getRoomId
  rw [find?_socketId_map m sid f hsock]
  cases m.find? (fun u => u.socketId == sid) with
  | none => rfl
  | some u => simp [hrm]

theorem getRoomId_some_elim (m : List User) (sid : SocketId) (ρ : String)
    (h : getRoomId m sid = some ρ) :
    ∃ u, getUserBySocketId m sid = some u ∧ u.roomId = ρ ∧ ρ ≠ "" := by
  unfold getRoomId at h
  unfold getUserBySocketId
  cases hf : m.find? (fun u => u.socketId == sid) with
  | none =>
    rw [hf] at h
    exact absurd h (by simp)
  | some u =>
    rw [hf] at h
    dsimp only at h
    by_cases he : u.roomId = ""
    · rw [if_pos he] at h
      exact absurd h (by simp)
    · rw [if_neg he] at h
      have hr : u.roomId = ρ := Option.some.inj h
      exact ⟨u, rfl, hr, hr ▸ he⟩

theorem mem_roomMembers_of_pair (g : List (SocketId × String))
    (sid : SocketId) (ρ : String) (h : (sid, ρ) ∈ g) :
    sid ∈ roomMembers g ρ := by
  unfold roomMembers
  exact List.mem_map.mpr ⟨(sid, ρ), List.mem_filter.mpr ⟨h, by simp⟩, rfl⟩

theorem handleTypingStart_out_registered (s : ServerState) (sid : SocketId)
    (cp : Nat) (u0 : User)
    (hfind : getUserBySocketId s.userSocketMap sid = some u0) :
    (handleTypingStart s sid cp).out
      = broadcastToRoom s.groups sid u0.roomId SocketEvent.TYPING_START
          (Payload.user { u0 with typing := true, cursorPosition := cp }) := by
  have hcond := List.find?_some
    (show s.userSocketMap.find? (fun v => v.socketId == sid) = some u0 from hfind)
  have hmapfind : getUserBySocketId
      (s.userSocketMap.map (fun u =>
        if u.socketId == sid then { u with typing := true, cursorPosition := cp } else u)) sid
      = some (if u0.socketId == sid
          then { u0 with typing := true, cursorPosition := cp } else u0) := by
    rw [getUserBySocketId_map _ _ _ (fun u => by split <;> rfl), hfind]
    rfl
  unfold handleTypingStart
  dsimp only
  rw [hmapfind, if_pos hcond]

theorem handleTypingPause_out_registered (s : ServerState) (sid : SocketId)
    (u0 : User)
    (hfind : getUserBySocketId s.userSocketMap sid = some u0) :
    (handleTypingPause s sid).out
      = broadcastToRoom s.groups sid u0.roomId SocketEvent.TYPING_PAUSE
          (Payload.user { u0 with typing := false }) := by
  have hcond := List.find?_some
    (show s.userSocketMap.find? (fun v => v.socketId == sid) = some u0 from hfind)
  have hmapfind : getUserBySocketId
      (s.userSocketMap.map (fun u =>
        if u.socketId == sid then { u with typing := false } else u)) sid
      = some (if u0.socketId == sid then { u0 with typing := false } else u0) := by
    rw [getUserBySocketId_map _ _ _ (fun u => by split <;> rfl), hfind]
    rfl
  unfold handleTypingPause
  dsimp only
  rw [hmapfind, if_pos hcond]

theorem handleUserOffline_out_registered (s : ServerState) (sid target : SocketId)
    (ρ : String) (hroom : getRoomId s.userSocketMap target = some ρ) :
    (handleUserOffline s sid target).out
      = broadcastToRoom s.groups sid ρ SocketEvent.USER_OFFLINE
          (Payload.socketId target) := by
  unfold handleUserOffline
  dsimp only
  rw [getRoomId_map _ _ _ (fun u => by split <;> rfl) (fun u => by split <;> rfl),
    hroom]

theorem handleUserOnline_out_registered (s : ServerState) (sid target : SocketId)
    (ρ : String) (hroom : getRoomId s.userSocketMap target = some ρ) :
    (handleUserOnline s sid target).out
      = broadcastToRoom s.groups sid ρ SocketEvent.USER_ONLINE
          (Payload.socketId target) := by
  unfold handleUserOnline
  dsimp only
  rw [getRoomId_map _ _ _ (fun u => by split <;> rfl) (fun u => by split <;> rfl),
    hroom]

/-- Core coverage lemma: a sender-keyed room-broadcast event, or a
status toggle targeting the sender itself, sent by a registered member
is never delivered to the sending connection, reaches every other
member of the sender's transport room, and in particular every other
registered member of the sender's room whose connection is in that
transport room. -/
theorem roomBroadcast_covers_senderRoom_core (s : ServerState)
    (sid : SocketId) (ρ : String) (e : ClientEvent)
    (hev : isRoomBroadcastEvent sid e = true)
    (hroom : getRoomId s.userSocketMap sid = some ρ) :
    (∀ d ∈ (stepResult s e).out, d.target ≠ sid) ∧
    (∀ c ∈ roomMembers s.groups ρ, c ≠ sid →
      ∃ d ∈ (stepResult s e).out, d.target = c) ∧
    (∀ u ∈ getUsersInRoom s.userSocketMap ρ, u.socketId ≠ sid →
      (u.socketId, u.roomId) ∈ s.groups →
      ∃ d ∈ (stepResult s e).out, d.target = u.socketId) := by
  suffices hout : ∃ ev p, (stepResult s e).out = broadcastToRoom s.groups sid ρ ev p by
    obtain ⟨ev, p, hq⟩ := hout
    rw [hq]
    refine ⟨fun d hd => broadcastToRoom_target_ne_sender hd, ?_, ?_⟩
    · intro c hc hne
      exact ⟨Delivery.mk c ev p, broadcastToRoom_covers ev p hc hne, rfl⟩
    · intro u hu hne hpair
      have hur : u.roomId = ρ := by
        have hbeq := (List.mem_filter.mp hu).2
        simpa using hbeq
      have hc : u.socketId ∈ roomMembers s.groups ρ := by
        rw [← hur]
        exact mem_roomMembers_of_pair s.groups u.socketId u.roomId (hur ▸ hpair)
      exact ⟨Delivery.mk u.socketId ev p, broadcastToRoom_covers ev p hc hne, rfl⟩
  cases e with
  | sendMessage s0 m =>
    have hs : s0 = sid := by simpa [isRoomBroadcastEvent] using hev
    subst hs
    exact ⟨SocketEvent.RECEIVE_MESSAGE, Payload.message m, by
      simp [stepResult, handleSendMessage, roomBroadcastResult_some _ _ _ _ _ hroom]⟩
  | typingStart s0 cp =>
    have hs : s0 = sid := by simpa [isRoomBroadcastEvent] using hev
    subst hs
    obtain ⟨u0, hfind, hu0r, _⟩ := getRoomId_some_elim _ _ _ hroom
    refine ⟨SocketEvent.TYPING_START,
      Payload.user { u0 with typing := true, cursorPosition := cp }, ?_⟩
    rw [← hu0r]
    exact handleTypingStart_out_registered s s0 cp u0 hfind
  | typingPause s0 =>
    have hs : s0 = sid := by simpa [isRoomBroadcastEvent] using hev
    subst hs
    obtain ⟨u0, hfind, hu0r, _⟩ := getRoomId_some_elim _ _ _ hroom
    refine ⟨SocketEvent.TYPING_PAUSE, Payload.user { u0 with typing := false }, ?_⟩
    rw [← hu0r]
    exact handleTypingPause_out_registered s s0 u0 hfind
  | userOffline s0 t =>
    have hs : s0 = sid ∧ t = sid := by
      simpa [isRoomBroadcastEvent, Bool.and_eq_true] using hev
    refine ⟨SocketEvent.USER_OFFLINE, Payload.socketId t, ?_⟩
    rw [← hs.1]
    exact handleUserOffline_out_registered s s0 t ρ (by rw [hs.2]; exact hroom)
  | userOnline s0 t =>
    have hs : s0 = sid ∧ t = sid := by
      simpa [isRoomBroadcastEvent, Bool.and_eq_true] using hev
    refine ⟨SocketEvent.USER_ONLINE, Payload.socketId t, ?_⟩
    rw [← hs.1]
    exact handleUserOnline_out_registered s s0 t ρ (by rw [hs.2]; exact hroom)
  | fileCreated s0 a b =>
    have hs : s0 = sid := by simpa [isRoomBroadcastEvent] using hev
    subst hs
    exact ⟨SocketEvent.FILE_CREATED, Payload.pair a b, by
      simp [stepResult, handleFileCreated, roomBroadcastResult_some _ _ _ _ _ hroom]⟩
  | fileUpdated s0 a b =>
    have hs : s0 = sid := by simpa [isRoomBroadcastEvent] using hev
    subst hs
    exact ⟨SocketEvent.FILE_UPDATED, Payload.pair a b, by
      simp [stepResult, handleFileUpdated, roomBroadcastResult_some _ _ _ _ _ hroom]⟩
  | fileRenamed s0 a b =>
    have hs : s0 = sid := by simpa [isRoomBroadcastEvent] using hev
    subst hs
    exact ⟨SocketEvent.FILE_RENAMED, Payload.pair a b, by
      simp [stepResult, handleFileRenamed, roomBroadcastResult_some _ _ _ _ _ hroom]⟩
  | fileDeleted s0 a =>
    have hs : s0 = sid := by simpa [isRoomBroadcastEvent] using hev
    subst hs
    exact ⟨SocketEvent.FILE_DELETED, Payload.single a, by
      simp [stepResult, handleFileDeleted, roomBroadcastResult_some _ _ _ _ _ hroom]⟩
  | directoryCreated s0 a b =>
    have hs : s0 = sid := by simpa [isRoomBroadcastEvent] using hev
    subst hs
    exact ⟨SocketEvent.DIRECTORY_CREATED, Payload.pair a b, by
      simp [stepResult, handleDirectoryCreated, roomBroadcastResult_some _ _ _ _ _ hroom]⟩
  | directoryUpdated s0 a b =>
    have hs : s0 = sid := by simpa [isRoomBroadcastEvent] using hev
    subst hs
    exact ⟨SocketEvent.DIRECTORY_UPDATED, Payload.pair a b, by
      simp [stepResult, handleDirectoryUpdated, roomBroadcastResult_some _ _ _ _ _ hroom]⟩
  | directoryRenamed s0 a b =>
    have hs : s0 = sid := by simpa [isRoomBroadcastEvent] using hev
    subst hs
    exact ⟨SocketEvent.DIRECTORY_RENAMED, Payload.pair a b, by
      simp [stepResult, handleDirectoryRenamed, roomBroadcastResult_some _ _ _ _ _ hroom]⟩
  | directoryDeleted s0 a =>
    have hs : s0 = sid := by simpa [isRoomBroadcastEvent] using hev
    subst hs
    exact ⟨SocketEvent.DIRECTORY_DELETED, Payload.single a, by
      simp [stepResult, handleDirectoryDeleted, roomBroadcastResult_some _ _ _ _ _ hroom]⟩
  | drawingUpdate s0 a =>
    have hs : s0 = sid := by simpa [isRoomBroadcastEvent] using hev
    subst hs
    exact ⟨SocketEvent.DRAWING_UPDATE, Payload.single a, by
      simp [stepResult, handleDrawingUpdate, roomBroadcastResult_some _ _ _ _ _ hroom]⟩
  | requestDrawing s0 =>
    have hs : s0 = sid := by simpa [isRoomBroadcastEvent] using hev
    subst hs
    exact ⟨SocketEvent.REQUEST_DRAWING, Payload.socketId s0, by
      simp [stepResult, handleRequestDrawing, roomBroadcastResult_some _ _ _ _ _ hroom]⟩
  | joinRequest s0 a b => simp [isRoomBroadcastEvent] at hev
  | disconnecting s0 => simp [isRoomBroadcastEvent] at hev
  | syncFileStructure s0 a b c t => simp [isRoomBroadcastEvent] at hev
  | syncDrawing s0 a t => simp [isRoomBroadcastEvent] at hev

theorem handleUserOffline_state (s : ServerState) (sid target : SocketId) :
    (handleUserOffline s sid target).state
      = { s with userSocketMap := s.userSocketMap.map (fun u =>
          if u.socketId == target then { u with status := Status.offline } else u) } := by
  unfold handleUserOffline
  dsimp only
  split <;> rfl

theorem handleUserOnline_state (s : ServerState) (sid target : SocketId) :
    (handleUserOnline s sid target).state
      = { s with userSocketMap := s.userSocketMap.map (fun u =>
          if u.socketId == target then { u with status := Status.online } else u) } := by
  unfold handleUserOnline
  dsimp only
  split <;> rfl

/-- The pointwise frame facts for a per-socket status update of the
registry list. -/
theorem statusUpdate_frame (m : List User) (target : SocketId) (st : Status) :
    ((m.map (fun u => if u.socketId == target then { u with status := st } else u)).length
       = m.length) ∧
    (∀ i : Nat, ∀ u : User, m[i]? = some u → u.socketId ≠ target →
      (m.map (fun u => if u.socketId == target then { u with status := st } else u))[i]?
        = some u) ∧
    (∀ i : Nat, ∀ u : User, m[i]? = some u → u.socketId = target →
      (m.map (fun u => if u.socketId == target then { u with status := st } else u))[i]?
        = some { u with status := st }) ∧
    (getUserBySocketId m target = none →
      m.map (fun u => if u.socketId == target then { u with status := st } else u) = m) ∧
    (∀ ρ : String, ∀ u ∈ getUsersInRoom
        (m.map (fun u => if u.socketId == target then { u with status := st } else u)) ρ,
      u.socketId = target → u.status = st) := by
  refine ⟨List.length_map _ _, ?_, ?_, ?_, ?_⟩
  · intro i u hi hne
    rw [List.getElem?_map, hi]
    dsimp only [Option.map]
    rw [if_neg (by simpa using hne)]
  · intro i u hi heq
    rw [List.getElem?_map, hi]
    dsimp only [Option.map]
    rw [if_pos (by simpa using heq)]
  · intro hmiss
    exact update_map_miss m target (fun u => { u with status := st }) hmiss
  · intro ρ u hu hsockeq
    have humem : u ∈ m.map
        (fun u => if u.socketId == target then { u with status := st } else u) := by
      have := List.mem_filter.mp hu
      exact this.1
    obtain ⟨v, hv, hvu⟩ := List.mem_map.mp humem
    by_cases hvt : (v.socketId == target) = true
    · rw [if_pos hvt] at hvu
      rw [← hvu]
    · rw [if_neg hvt] at hvu
      subst hvu
      exact absurd hsockeq (by simpa using hvt)

/-- C9. The `user-offline` and `user-online` events mutate only the
`status` field of the registry rows whose socketId equals the payload's
connectionId — every other row, and every other field of the targeted
row, is unchanged; the event leaves the registry list unchanged when no
such row exists; the transport groups are untouched; and the mutation
is applied before the broadcast, so every roster read on the post-event
registry already sees the new status. -/
theorem userStatus_frame_conditions (s : ServerState) (sid target : SocketId) :
    ((handleUserOffline s sid target).state.userSocketMap.length
       = s.userSocketMap.length ∧
     (∀ i : Nat, ∀ u : User, s.userSocketMap[i]? = some u → u.socketId ≠ target →
       (handleUserOffline s sid target).state.userSocketMap[i]? = some u) ∧
     (∀ i : Nat, ∀ u : User, s.userSocketMap[i]? = some u → u.socketId = target →
       (handleUserOffline s sid target).state.userSocketMap[i]?
         = some { u with status := Status.offline }) ∧
     (getUserBySocketId s.userSocketMap target = none →
       (handleUserOffline s sid target).state.userSocketMap = s.userSocketMap) ∧
     (handleUserOffline s sid target).state.groups = s.groups ∧
     (∀ ρ : String, ∀ u ∈ getUsersInRoom
         (handleUserOffline s sid target).state.userSocketMap ρ,
       u.socketId = target → u.status = Status.offline)) ∧
    ((handleUserOnline s sid target).state.userSocketMap.length
       = s.userSocketMap.length ∧
     (∀ i : Nat, ∀ u : User, s.userSocketMap[i]? = some u → u.socketId ≠ target →
       (handleUserOnline s sid target).state.userSocketMap[i]? = some u) ∧
     (∀ i : Nat, ∀ u : User, s.userSocketMap[i]? = some u → u.socketId = target →
       (handleUserOnline s sid target).state.userSocketMap[i]?
         = some { u with status := Status.online }) ∧
     (getUserBySocketId s.userSocketMap target = none →
       (handleUserOnline s sid target).state.userSocketMap = s.userSocketMap) ∧
     (handleUserOnline s sid target).state.groups = s.groups ∧
     (∀ ρ : String, ∀ u ∈ getUsersInRoom
         (handleUserOnline s sid target).state.userSocketMap ρ,
       u.socketId = target → u.status = Status.online)) := by
  have hoff := statusUpdate_frame s.userSocketMap target Status.offline
  have hon := statusUpdate_frame s.userSocketMap target Status.online
  rw [handleUserOffline_state, handleUserOnline_state]
  exact ⟨⟨hoff.1, hoff.2.1, hoff.2.2.1, hoff.2.2.2.1, rfl, hoff.2.2.2.2⟩,
    ⟨hon.1, hon.2.1, hon.2.2.1, hon.2.2.2.1, rfl, hon.2.2.2.2⟩⟩

theorem userStatus_frame_conditions_witness :
    stateAliceBob.userSocketMap[0]? = some (joinUser "c1" "r1" "alice") ∧
    (joinUser "c1" "r1" "alice").socketId = "c1" ∧
    (handleUserOffline stateAliceBob "c1" "c1").state.userSocketMap[0]?
      = some { joinUser "c1" "r1" "alice" with status := Status.offline } ∧
    stateAliceBob.userSocketMap[1]? = some (joinUser "c2" "r1" "bob") ∧
    (joinUser "c2" "r1" "bob").socketId ≠ "c1" ∧
    (handleUserOffline stateAliceBob "c1" "c1").state.userSocketMap[1]?
      = some (joinUser "c2" "r1" "bob") :=
  ⟨by decide, by decide,
    (userStatus_frame_conditions stateAliceBob "c1" "c1").1.2.2.1 0
      (joinUser "c1" "r1" "alice") (by decide) (by decide),
    by decide, by decide,
    (userStatus_frame_conditions stateAliceBob "c1" "c1").1.2.1 1
      (joinUser "c2" "r1" "bob") (by decide) (by decide)⟩

theorem roomBroadcastResult_out_ne_sender (s : ServerState) (x : SocketId)
    (ev : SocketEvent) (p : Payload) :
    ∀ d ∈ (roomBroadcastResult s x ev p).out, d.target ≠ x := by
  intro d hd
  cases hr : getRoomId s.userSocketMap x with
  | none =>
    rw [roomBroadcastResult_none s x ev p hr] at hd
    simp at hd
  | some ρ =>
    rw [roomBroadcastResult_some s x ev p ρ hr] at hd
    exact broadcastToRoom_target_ne_sender hd

theorem handleTypingStart_out_ne_sender (s : ServerState) (x : SocketId)
    (cp : Nat) : ∀ d ∈ (handleTypingStart s x cp).out, d.target ≠ x := by
  intro d hd
  unfold handleTypingStart at hd
  dsimp only at hd
  split at hd
  · simp at hd
  · exact broadcastToRoom_target_ne_sender hd

theorem handleTypingPause_out_ne_sender (s : ServerState) (x : SocketId) :
    ∀ d ∈ (handleTypingPause s x).out, d.target ≠ x := by
  intro d hd
  unfold handleTypingPause at hd
  dsimp only at hd
  split at hd
  · simp at hd
  · exact broadcastToRoom_target_ne_sender hd

theorem handleUserOffline_out_ne_sender (s : ServerState) (x t : SocketId) :
    ∀ d ∈ (handleUserOffline s x t).out, d.target ≠ x := by
  intro d hd
  unfold handleUserOffline at hd
  dsimp only at hd
  split at hd
  · simp at hd
  · exact broadcastToRoom_target_ne_sender hd

theorem handleUserOnline_out_ne_sender (s : ServerState) (x t : SocketId) :
    ∀ d ∈ (handleUserOnline s x t).out, d.target ≠ x := by
  intro d hd
  unfold handleUserOnline at hd
  dsimp only at hd
  split at hd
  · simp at hd
  · exact broadcastToRoom_target_ne_sender hd

theorem handleUserOffline_out_unregistered (s : ServerState) (sid target : SocketId)
    (hroom : getRoomId s.userSocketMap target = none) :
    (handleUserOffline s sid target).out = [] := by
  unfold handleUserOffline
  dsimp only
  rw [getRoomId_map _ _ _ (fun u => by split <;> rfl) (fun u => by split <;> rfl),
    hroom]

theorem handleUserOnline_out_unregistered (s : ServerState) (sid target : SocketId)
    (hroom : getRoomId s.userSocketMap target = none) :
    (handleUserOnline s sid target).out = [] := by
  unfold handleUserOnline
  dsimp only
  rw [getRoomId_map _ _ _ (fun u => by split <;> rfl) (fun u => by split <;> rfl),
    hroom]

/-- C6 counterexample. A peer-targeted status toggle is not routed by
the sender's room: with alice(c1) and carol(c3) in r1 and bob(c2) in
r2, the registered sender c1 emitting `user-offline{socketId:c2}`
delivers only to c2 — carol, the other current member of the sender's
room r1 (in the registry and in the transport group), receives
nothing. -/
theorem userOffline_peer_target_cex :
    getRoomId stateAliceBobCarol.userSocketMap "c1" = some "r1" ∧
    "c3" ∈ roomMembers stateAliceBobCarol.groups "r1" ∧
    joinUser "c3" "r1" "carol" ∈ getUsersInRoom stateAliceBobCarol.userSocketMap "r1" ∧
    (stepResult stateAliceBobCarol (ClientEvent.userOffline "c1" "c2")).out
      = [Delivery.mk "c2" SocketEvent.USER_OFFLINE (Payload.socketId "c2")] ∧
    (∀ d ∈ (stepResult stateAliceBobCarol (ClientEvent.userOffline "c1" "c2")).out,
      d.target ≠ "c3") := by
  decide

/-- C6 amended. For every room-broadcast event sent by a registered
member (the status toggles with an arbitrary target): the event is
never delivered back to the sending connection. The sender-keyed
events (send-message, typing start/pause, file and directory
create/update/rename/delete, drawing-update, request-drawing) and the
self-targeted toggles are delivered to every other current member of
the sender's room. A `user-online`/`user-offline` toggle naming a
registered peer is instead delivered to every member of the *target's*
room except the sender, and one naming an unknown target is delivered
to nobody. -/
theorem roomBroadcast_audience_spec (s : ServerState) (sid : SocketId) :
    (∀ e : ClientEvent, isRoomBroadcastAnyTarget sid e = true →
      ∀ d ∈ (stepResult s e).out, d.target ≠ sid) ∧
    (∀ e : ClientEvent, ∀ ρ : String, isRoomBroadcastEvent sid e = true →
      getRoomId s.userSocketMap sid = some ρ →
      (∀ c ∈ roomMembers s.groups ρ, c ≠ sid →
        ∃ d ∈ (stepResult s e).out, d.target = c) ∧
      (∀ u ∈ getUsersInRoom s.userSocketMap ρ, u.socketId ≠ sid →
        (u.socketId, u.roomId) ∈ s.groups →
        ∃ d ∈ (stepResult s e).out, d.target = u.socketId)) ∧
    (∀ t : SocketId, ∀ ρt : String, getRoomId s.userSocketMap t = some ρt →
      (stepResult s (ClientEvent.userOffline sid t)).out
        = broadcastToRoom s.groups sid ρt SocketEvent.USER_OFFLINE (Payload.socketId t) ∧
      (stepResult s (ClientEvent.userOnline sid t)).out
        = broadcastToRoom s.groups sid ρt SocketEvent.USER_ONLINE (Payload.socketId t)) ∧
    (∀ t : SocketId, getRoomId s.userSocketMap t = none →
      (stepResult s (ClientEvent.userOffline sid t)).out = [] ∧
      (stepResult s (ClientEvent.userOnline sid t)).out = []) := by
  refine ⟨?_, ?_, ?_, ?_⟩
  · intro e hev d hd
    cases e with
    | sendMessage s0 m =>
      have hs : s0 = sid := by simpa [isRoomBroadcastAnyTarget, isRoomBroadcastEvent] using hev
      subst hs
      exact roomBroadcastResult_out_ne_sender s s0 _ _ d hd
    | typingStart s0 cp =>
      have hs : s0 = sid := by simpa [isRoomBroadcastAnyTarget, isRoomBroadcastEvent] using hev
      subst hs
      exact handleTypingStart_out_ne_sender s s0 cp d hd
    | typingPause s0 =>
      have hs : s0 = sid := by simpa [isRoomBroadcastAnyTarget, isRoomBroadcastEvent] using hev
      subst hs
      exact handleTypingPause_out_ne_sender s s0 d hd
    | userOffline s0 t =>
      have hs : s0 = sid := by simpa [isRoomBroadcastAnyTarget] using hev
      subst hs
      exact handleUserOffline_out_ne_sender s s0 t d hd
    | userOnline s0 t =>
      have hs : s0 = sid := by simpa [isRoomBroadcastAnyTarget] using hev
      subst hs
      exact handleUserOnline_out_ne_sender s s0 t d hd
    | fileCreated s0 a b =>
      have hs : s0 = sid := by simpa [isRoomBroadcastAnyTarget, isRoomBroadcastEvent] using hev
      subst hs
      exact roomBroadcastResult_out_ne_sender s s0 _ _ d hd
    | fileUpdated s0 a b =>
      have hs : s0 = sid := by simpa [isRoomBroadcastAnyTarget, isRoomBroadcastEvent] using hev
      subst hs
      exact roomBroadcastResult_out_ne_sender s s0 _ _ d hd
    | fileRenamed s0 a b =>
      have hs : s0 = sid := by simpa [isRoomBroadcastAnyTarget, isRoomBroadcastEvent] using hev
      subst hs
      exact roomBroadcastResult_out_ne_sender s s0 _ _ d hd
    | fileDeleted s0 a =>
      have hs : s0 = sid := by simpa [isRoomBroadcastAnyTarget, isRoomBroadcastEvent] using hev
      subst hs
      exact roomBroadcastResult_out_ne_sender s s0 _ _ d hd
    | directoryCreated s0 a b =>
      have hs : s0 = sid := by simpa [isRoomBroadcastAnyTarget, isRoomBroadcastEvent] using hev
      subst hs
      exact roomBroadcastResult_out_ne_sender s s0 _ _ d hd
    | directoryUpdated s0 a b =>
      have hs : s0 = sid := by simpa [isRoomBroadcastAnyTarget, isRoomBroadcastEvent] using hev
      subst hs
      exact roomBroadcastResult_out_ne_sender s s0 _ _ d hd
    | directoryRenamed s0 a b =>
      have hs : s0 = sid := by simpa [isRoomBroadcastAnyTarget, isRoomBroadcastEvent] using hev
      subst hs
      exact roomBroadcastResult_out_ne_sender s s0 _ _ d hd
    | directoryDeleted s0 a =>
      have hs : s0 = sid := by simpa [isRoomBroadcastAnyTarget, isRoomBroadcastEvent] using hev
      subst hs
      exact roomBroadcastResult_out_ne_sender s s0 _ _ d hd
    | drawingUpdate s0 a =>
      have hs : s0 = sid := by simpa [isRoomBroadcastAnyTarget, isRoomBroadcastEvent] using hev
      subst hs
      exact roomBroadcastResult_out_ne_sender s s0 _ _ d hd
    | requestDrawing s0 =>
      have hs : s0 = sid := by simpa [isRoomBroadcastAnyTarget, isRoomBroadcastEvent] using hev
      subst hs
      exact roomBroadcastResult_out_ne_sender s s0 _ _ d hd
    | joinRequest s0 a b => simp [isRoomBroadcastAnyTarget, isRoomBroadcastEvent] at hev
    | disconnecting s0 => simp [isRoomBroadcastAnyTarget, isRoomBroadcastEvent] at hev
    | syncFileStructure s0 a b c t => simp [isRoomBroadcastAnyTarget, isRoomBroadcastEvent] at hev
    | syncDrawing s0 a t => simp [isRoomBroadcastAnyTarget, isRoomBroadcastEvent] at hev
  · intro e ρ hev hroom
    exact ⟨(roomBroadcast_covers_senderRoom_core s sid ρ e hev hroom).2.1,
      (roomBroadcast_covers_senderRoom_core s sid ρ e hev hroom).2.2⟩
  · intro t ρt hroom
    exact ⟨handleUserOffline_out_registered s sid t ρt hroom,
      handleUserOnline_out_registered s sid t ρt hroom⟩
  · intro t hroom
    exact ⟨handleUserOffline_out_unregistered s sid t hroom,
      handleUserOnline_out_unregistered s sid t hroom⟩

theorem roomBroadcast_audience_spec_witness :
    isRoomBroadcastEvent "c1" (ClientEvent.sendMessage "c1" "hi") = true ∧
    getRoomId stateAliceBob.userSocketMap "c1" = some "r1" ∧
    (∃ d ∈ (stepResult stateAliceBob (ClientEvent.sendMessage "c1" "hi")).out,
      d.target = "c2") ∧
    getRoomId stateAliceBobCarol.userSocketMap "c2" = some "r2" ∧
    (stepResult stateAliceBobCarol (ClientEvent.userOffline "c1" "c2")).out
      = broadcastToRoom stateAliceBobCarol.groups "c1" "r2"
          SocketEvent.USER_OFFLINE (Payload.socketId "c2") :=
  ⟨by decide, by decide,
    ((roomBroadcast_audience_spec stateAliceBob "c1").2.1
      (ClientEvent.sendMessage "c1" "hi") "r1" (by decide) (by decide)).1
      "c2" (by decide) (by decide),
    by decide,
    ((roomBroadcast_audience_spec stateAliceBobCarol "c1").2.2.1
      "c2" "r2" (by decide)).1⟩

end EditMe
